import Mathlib

/-!
Shallow embedding of `sakura_checker.py` (sakura status-feed monitor) and
verification of its specification claims.

Modelling conventions:
* Python strings are Lean `String`; Python `str.startswith`, `in`,
  `str.isdigit`, `int(...)`, `str.split('_')` and `str.replace('Z', ...)` are
  embedded as executable Lean functions on `String` / `List Char`.
* The persisted notification ledger (a JSON object read/written as a whole) is
  an insertion-ordered association list `List (String × String)`; Python dict
  assignment `d[k] = v` is `dictSet` (update in place if the key exists,
  append otherwise), `del` is a filter.
* Instants (`datetime` values) are seconds since the Unix epoch (`Int`);
  `astimezone` does not change an instant, and comparisons of aware datetimes
  compare instants, so the relevance comparisons act directly on epoch
  seconds.  JST civil midnight of the day containing instant `t`
  (`now_jst.replace(hour=0, minute=0, second=0, microsecond=0)`) is
  `t - ((t + 9*3600) % 86400)`.
* Wall-clock values used only through `strftime` (ledger keys/buckets) are a
  record of JST civil fields `JSTTime`.
* `datetime.fromisoformat` is an abstract parameter
  `isoParse : String → Option Int` (`none` models a raised `ValueError`);
  `datetime.fromtimestamp(int(s), tz=utc)` on a digit string is the decimal
  value of `s` as epoch seconds.
* SHA-256 (`hashlib.sha256(...).hexdigest()[:16]`) is implemented in full on
  `Nat` bytes with explicit `% 2^32`.
-/

namespace SakuraChecker

/-- Python `p in s` relation on character lists: `sub` occurs contiguously in `l`. -/
def seqInStr (sub : List Char) : List Char → Bool
  | [] => sub.isEmpty
  | c :: cs => sub.isPrefixOf (c :: cs) || seqInStr sub cs

/-- Python `sub in s` (substring containment). -/
def pyIn (sub s : String) : Bool := seqInStr sub.data s.data

/-- Python `s.startswith(p)`. -/
def pyStartsWith (s p : String) : Bool := p.data.isPrefixOf s.data

/-- Python `s.isdigit()` for ASCII-decimal strings: nonempty and all digits. -/
def pyIsDigit (s : String) : Bool := !s.data.isEmpty && s.data.all Char.isDigit

/-- Python `int(s)` on a decimal-digit string. -/
def pyInt (s : String) : Nat := s.data.foldl (fun a c => a * 10 + (c.toNat - 48)) 0

/-- Python `s.replace('Z', '+00:00')`: the pattern is a single character, so the
replacement rewrites every occurrence of `Z` independently. -/
def replace_Z_utc (s : String) : String :=
  ⟨s.data.foldr (fun c acc => if c = 'Z' then ("+00:00").data ++ acc else c :: acc) []⟩

/-- Python `str(b)` for a boolean. -/
def pyStr (b : Bool) : String := if b then ("True") else ("False")

/-- Lexicographic code-point comparison on character lists. -/
def lexLt : List Char → List Char → Bool
  | [], [] => false
  | [], _ :: _ => true
  | _ :: _, [] => false
  | a :: as, b :: bs =>
    if a.toNat < b.toNat then true
    else if a.toNat = b.toNat then lexLt as bs
    else false

/-- Python `a < b` on strings: lexicographic comparison by code point. -/
def pyStrLt (a b : String) : Bool := lexLt a.data b.data

/-- Python `s.split('_')` on character lists (single-character separator). -/
def splitU : List Char → List (List Char)
  | [] => [[]]
  | c :: cs =>
    if c = '_' then [] :: splitU cs
    else
      match splitU cs with
      | [] => [[]]
      | p :: ps => (c :: p) :: ps

/-- Python `key.split('_')` returning strings. -/
def pySplit (s : String) : List String := (splitU s.data).map String.mk

/-- JST civil wall-clock fields, as consumed by `strftime`. -/
structure JSTTime where
  year : Nat
  month : Nat
  day : Nat
  hour : Nat
  minute : Nat
  second : Nat
deriving DecidableEq, Repr

/-- Zero-pad a number to two digits (strftime `%m`, `%d`, `%H`, `%M`, `%S`). -/
def pad2 (n : Nat) : String := if n < 10 then ("0") ++ toString n else toString n

/-- Zero-pad a year to four digits (strftime `%Y`). -/
def pad4 (n : Nat) : String :=
  if n < 10 then ("000") ++ toString n
  else if n < 100 then ("00") ++ toString n
  else if n < 1000 then ("0") ++ toString n
  else toString n

/-- strftime `%Y%m%d` on JST civil fields. -/
def fmtYmd (t : JSTTime) : String := pad4 t.year ++ pad2 t.month ++ pad2 t.day

/-- strftime `%Y%m%d_%H` on JST civil fields. -/
def fmtYmdH (t : JSTTime) : String := fmtYmd t ++ ("_") ++ pad2 t.hour

/-- strftime `%H%M%S` on JST civil fields. -/
def fmtHMS (t : JSTTime) : String := pad2 t.hour ++ pad2 t.minute ++ pad2 t.second

/-- strftime `%Y%m%d_%H%M%S` on JST civil fields. -/
def fmtYmdHMS (t : JSTTime) : String := fmtYmd t ++ ("_") ++ fmtHMS t

/-- Epoch-seconds instant of JST civil midnight of the day containing `now`:
the embedding of `now_jst.replace(hour=0, minute=0, second=0, microsecond=0)`. -/
def todayStart (now : Int) : Int := now - ((now + 9 * 3600) % 86400)

/-- The persisted notification ledger: an insertion-ordered string-to-string map. -/
abbrev HashDict := List (String × String)

/-- Python dict assignment `d[k] = v`: replace in place when the key exists,
append otherwise. -/
def dictSet (d : HashDict) (k v : String) : HashDict :=
  if d.any (fun p => p.1 = k) then d.map (fun p => if p.1 = k then (k, v) else p)
  else d ++ [(k, v)]

/-- UTF-8 encoding of one character as bytes. -/
def utf8Bytes (c : Char) : List Nat :=
  let n := c.toNat
  if n < 128 then [n]
  else if n < 2048 then [192 + n / 64, 128 + n % 64]
  else if n < 65536 then [224 + n / 4096, 128 + (n / 64) % 64, 128 + n % 64]
  else [240 + n / 262144, 128 + (n / 4096) % 64, 128 + (n / 64) % 64, 128 + n % 64]

/-- UTF-8 encoding of a string as a byte list (Python `s.encode('utf-8')`). -/
def strBytes (s : String) : List Nat := s.data.foldr (fun c acc => utf8Bytes c ++ acc) []

/-- Rotate a 32-bit word right by `n` bits. -/
def rotr32 (n x : Nat) : Nat := ((x >>> n) ||| (x <<< (32 - n))) % 4294967296

/-- SHA-256 round constants (FIPS 180-4, in decimal). -/
def shaK : List Nat :=
  [1116352408, 1899447441, 3049323471, 3921009573, 961987163, 1508970993,
   2453635748, 2870763221, 3624381080, 310598401, 607225278, 1426881987,
   1925078388, 2162078206, 2614888103, 3248222580, 3835390401, 4022224774,
   264347078, 604807628, 770255983, 1249150122, 1555081692, 1996064986,
   2554220882, 2821834349, 2952996808, 3210313671, 3336571891, 3584528711,
   113926993, 338241895, 666307205, 773529912, 1294757372, 1396182291,
   1695183700, 1986661051, 2177026350, 2456956037, 2730485921, 2820302411,
   3259730800, 3345764771, 3516065817, 3600352804, 4094571909, 275423344,
   430227734, 506948616, 659060556, 883997877, 958139571, 1322822218,
   1537002063, 1747873779, 1955562222, 2024104815, 2227730452, 2361852424,
   2428436474, 2756734187, 3204031479, 3329325298]

/-- SHA-256 initial hash state (FIPS 180-4, in decimal). -/
def shaH0 : List Nat :=
  [1779033703, 3144134277, 1013904242, 2773480762,
   1359893119, 2600822924, 528734635, 1541459225]

/-- Big-endian byte expansion of `v` into `n` bytes. -/
def beBytes : Nat → Nat → List Nat
  | 0, _ => []
  | n + 1, v => beBytes n (v / 256) ++ [v % 256]

/-- SHA-256 message padding: `0x80`, zeros to 56 mod 64, 8-byte bit length. -/
def shaPad (msg : List Nat) : List Nat :=
  let L := msg.length
  let k := (120 - (L + 1) % 64) % 64
  msg ++ [128] ++ List.replicate k 0 ++ beBytes 8 (8 * L)

/-- Big-endian assembly of 4-byte groups into 32-bit words. -/
def beWords : List Nat → List Nat
  | b0 :: b1 :: b2 :: b3 :: rest => (((b0 * 256 + b1) * 256 + b2) * 256 + b3) :: beWords rest
  | _ => []

/-- SHA-256 message-schedule extension of 16 words to 64 words. -/
def shaSchedule (w16 : List Nat) : List Nat :=
  (List.range 48).foldl (fun w _ =>
    let i := w.length
    let w15 := w.getD (i - 15) 0
    let w2 := w.getD (i - 2) 0
    let w16v := w.getD (i - 16) 0
    let w7 := w.getD (i - 7) 0
    let s0 := rotr32 7 w15 ^^^ rotr32 18 w15 ^^^ (w15 >>> 3)
    let s1 := rotr32 17 w2 ^^^ rotr32 19 w2 ^^^ (w2 >>> 10)
    w ++ [(w16v + s0 + w7 + s1) % 4294967296]) w16

/-- SHA-256 compression of one 64-byte block into the running state. -/
def shaCompress (h : List Nat) (block : List Nat) : List Nat :=
  let ws := shaSchedule (beWords block)
  let step := fun (st : List Nat) (kw : Nat × Nat) =>
    match st with
    | [a, b, c, d, e, f, g, hh] =>
      let s1 := rotr32 6 e ^^^ rotr32 11 e ^^^ rotr32 25 e
      let ch := (e &&& f) ^^^ ((e ^^^ 4294967295) &&& g)
      let t1 := (hh + s1 + ch + kw.1 + kw.2) % 4294967296
      let s0 := rotr32 2 a ^^^ rotr32 13 a ^^^ rotr32 22 a
      let mj := (a &&& b) ^^^ (a &&& c) ^^^ (b &&& c)
      let t2 := (s0 + mj) % 4294967296
      [(t1 + t2) % 4294967296, a, b, c, (d + t1) % 4294967296, e, f, g]
    | _ => st
  let fin := (shaK.zip ws).foldl step h
  (h.zip fin).map (fun p => (p.1 + p.2) % 4294967296)

/-- Split a byte list into 64-byte blocks. -/
def chunks64 : List Nat → List (List Nat)
  | [] => []
  | c :: l => (c :: l).take 64 :: chunks64 ((c :: l).drop 64)
termination_by l => l.length
decreasing_by
  simp [List.length_drop]
  omega

/-- SHA-256 digest of a byte list, as eight 32-bit words. -/
def sha256words (msg : List Nat) : List Nat := (chunks64 (shaPad msg)).foldl shaCompress shaH0

/-- Lowercase hexadecimal digit. -/
def hexChar (n : Nat) : Char := if n < 10 then Char.ofNat (48 + n) else Char.ofNat (87 + n)

/-- Eight lowercase hex digits of a 32-bit word. -/
def wordHex (w : Nat) : List Char :=
  [hexChar ((w >>> 28) % 16), hexChar ((w >>> 24) % 16), hexChar ((w >>> 20) % 16),
   hexChar ((w >>> 16) % 16), hexChar ((w >>> 12) % 16), hexChar ((w >>> 8) % 16),
   hexChar ((w >>> 4) % 16), hexChar (w % 16)]

/-- Python `hashlib.sha256(bytes).hexdigest()`. -/
def sha256hex (msg : List Nat) : String :=
  ⟨(sha256words msg).foldr (fun w acc => wordHex w ++ acc) []⟩

/-- One event record from the feed (`results` element).  Absent JSON fields are
`none`; `event_data.get(field, '')` is `Option.getD _ ""`. -/
structure EventData where
  id : Option String := none
  event_start : Option String := none
  event_end : Option String := none
  title : Option String := none
  desc : Option String := none
  url : Option String := none
deriving DecidableEq, Repr

/-- Embedding of `generate_notification_hash` (source lines 107-120): the first
16 hex digits of the SHA-256 of `f"{service}:{event_type}:{id}:{event_start}"`. -/
def generate_notification_hash (service event_type : String) (event_data : EventData) : String :=
  let unique_string :=
    service ++ (":") ++ event_type ++ (":") ++ event_data.id.getD ("")
      ++ (":") ++ event_data.event_start.getD ("")
  (sha256hex (strBytes unique_string)).take 16

/-- Embedding of `is_notification_already_sent_today` (source lines 122-153).
The ledger contents (`load_sent_notification_hashes()`) and the current JST
wall clock (`datetime.now(jst)`) are explicit parameters.  For `trouble` the
lookup is a prefix match on `f"{service}_{event_type}_" + strftime('%Y%m%d_%H')`,
otherwise on `f"{service}_{event_type}_" + strftime('%Y%m%d')`. -/
def is_notification_already_sent_today (service event_type : String) (now : JSTTime)
    (hashes : HashDict) : Bool :=
  if event_type = ("trouble") then
    let hour_bucket := service ++ ("_") ++ event_type ++ ("_") ++ fmtYmdH now
    hashes.any (fun kv => pyStartsWith kv.1 hour_bucket)
  else
    let today_bucket := service ++ ("_") ++ event_type ++ ("_") ++ fmtYmd now
    hashes.any (fun kv => pyStartsWith kv.1 today_bucket)

/-- The key written by `mark_notification_as_sent`:
`f"{service}_{event_type}_" + datetime.now(jst).strftime('%Y%m%d_%H%M%S')`. -/
def mark_key (service event_type : String) (now : JSTTime) : String :=
  service ++ ("_") ++ event_type ++ ("_") ++ fmtYmdHMS now

/-- Embedding of `mark_notification_as_sent` (source lines 155-171): store the
fingerprint of `event_data` under a fully timestamped key via dict assignment. -/
def mark_notification_as_sent (service event_type : String) (event_data : EventData)
    (now : JSTTime) (hashes : HashDict) : HashDict :=
  let current_hash := generate_notification_hash service event_type event_data
  dictSet hashes (mark_key service event_type now) current_hash

/-- Embedding of `cleanup_old_notification_hashes` (source lines 77-105).
The code computes `cutoff_str = (datetime.now(jst) - timedelta(days=7)).strftime('%Y%m%d')`
with the `datetime` library; `cutoff_str` is passed in here.  It then collects
every key having at least 4 `'_'`-separated parts whose third part compares
strictly below `cutoff_str` (string order) and deletes them; the net effect on
the ledger, including the `if not hashes` and "nothing to remove" early
returns, is this filter.  Values of retained keys are untouched. -/
def cleanup_old_notification_hashes (cutoff_str : String) (hashes : HashDict) : HashDict :=
  hashes.filter (fun kv =>
    let parts := pySplit kv.1
    !(decide (parts.length ≥ 4) && pyStrLt (parts.getD 2 ("")) cutoff_str))

/-- The "石狩第2ゾーン" narrow sub-region marker. -/
def zone2 : String := "石狩第2ゾーン"

/-- The "石狩第1ゾーン" paired primary-region marker. -/
def zone1 : String := "石狩第1ゾーン"

/-- Embedding of the timestamp parse used for `event_start` / `event_end`
(source lines 336-341 and 345-349): a digit-only string is epoch seconds
(`datetime.fromtimestamp(int(s), tz=utc)`), anything else goes to
`datetime.fromisoformat` after `s.replace('Z', '+00:00')`; `none` models the
`ValueError` that the caller's `except` turns into `False`. -/
def parse_timestamp (isoParse : String → Option Int) (s : String) : Option Int :=
  if pyIsDigit s then some (pyInt s) else isoParse (replace_Z_utc s)

/-- Parse of the optional `event_end` field (source lines 343-349): a missing or
empty string stays `None`; a present one that fails to parse raises, which the
surrounding `except` turns into an overall `False` (`none` here). -/
def parse_event_end (isoParse : String → Option Int) : Option String → Option (Option Int)
  | none => some none
  | some s =>
    if s.isEmpty then some none
    else match parse_timestamp isoParse s with
      | none => none
      | some v => some (some v)

/-- Embedding of `is_event_relevant` (source lines 312-379) at the epoch-seconds
instant `now`.  `astimezone(jst)` preserves instants and aware-datetime
comparisons compare instants, so the JST conversions disappear;
`today_start` is JST civil midnight, `todayStart now`. -/
def is_event_relevant (isoParse : String → Option Int) (event_data : EventData)
    (event_type : String) (now : Int) : Bool :=
  match event_data.event_start with
  | none => false
  | some event_start_str =>
    if event_start_str.isEmpty then false
    else
      let title := event_data.title.getD ("")
      let desc := event_data.desc.getD ("")
      if (pyIn zone2 title || pyIn zone2 desc) && (!pyIn zone1 title && !pyIn zone1 desc) then
        false
      else
        match parse_timestamp isoParse event_start_str with
        | none => false
        | some event_start =>
          match parse_event_end isoParse event_data.event_end with
          | none => false
          | some event_end =>
            let today_start := todayStart now
            if event_type = ("trouble") then
              match event_end with
              | some e => decide (e > now)
              | none => decide (event_start ≥ today_start)
            else
              decide (event_start ≥ today_start)

/-- Outcome of the webhook POST inside `send_slack_notification`
(source lines 259-273). -/
inductive DeliveryOutcome where
  /-- `response.status_code == 200`. -/
  | delivered : DeliveryOutcome
  /-- a 2xx-or-other non-200 status; logged as `[失敗]`. -/
  | httpError (code : Nat) : DeliveryOutcome
  /-- a raised `requests` exception; caught and logged as `[エラー]`. -/
  | networkError (msg : String) : DeliveryOutcome
deriving DecidableEq, Repr

/-- Embedding of `send_slack_notification` as seen by its caller: every outcome
(success, non-200 status, network exception) is swallowed inside the function
and `None` (`Unit`) is returned, so the caller receives no success signal. -/
def send_slack_notification (outcome : DeliveryOutcome) : Unit :=
  match outcome with
  | .delivered => ()
  | .httpError _ => ()
  | .networkError _ => ()

/-- Inputs of one (service, event-type) iteration of the orchestrator loop:
the fetched feed (`none` models `fetch_api_data` returning `None`) and the
ambient delivery outcome of the webhook POST, should one be attempted. -/
structure PairRun where
  service_id : String
  event_type_id : String
  fetch : Option (List EventData)
  outcome : DeliveryOutcome

/-- Embedding of one iteration of the orchestrator loop in
`check_sakura_api_status` (source lines 407-446): filter the fetched records
through `is_event_relevant`, consult the ledger, send and mark with the first
relevant record.  Returns the ledger and `alert_found` after the iteration. -/
def processPair (isoParse : String → Option Int) (send_to_slack : Bool) (pr : PairRun)
    (nowE : Int) (now : JSTTime) (hashes : HashDict) (alert_found : Bool) :
    HashDict × Bool :=
  match pr.fetch with
  | none => (hashes, alert_found)
  | some results =>
    let today_or_later_events :=
      results.filter (fun e => is_event_relevant isoParse e pr.event_type_id nowE)
    match today_or_later_events with
    | [] => (hashes, alert_found)
    | representative_event :: _ =>
      if !(is_notification_already_sent_today pr.service_id pr.event_type_id now hashes) then
        if send_to_slack then
          let _u := send_slack_notification pr.outcome
          (mark_notification_as_sent pr.service_id pr.event_type_id representative_event now hashes,
            true)
        else (hashes, true)
      else (hashes, alert_found)

/-- Embedding of a full `check_sakura_api_status` run (source lines 381-454):
prune with the precomputed cutoff, then fold the pair loop over the configured
(service, event-type) pairs starting from `alert_found = False`. -/
def check_sakura_api_status (isoParse : String → Option Int) (send_to_slack : Bool)
    (cutoff_str : String) (pairs : List PairRun) (nowE : Int) (now : JSTTime)
    (hashes0 : HashDict) : HashDict × Bool :=
  let cleaned := cleanup_old_notification_hashes cutoff_str hashes0
  pairs.foldl (fun st pr => processPair isoParse send_to_slack pr nowE now st.1 st.2)
    (cleaned, false)

/-- Embedding of the run summary printed at source lines 449-452: the f-string
interpolates the boolean `alert_found` itself. -/
def final_summary (alert_found : Bool) : String :=
  if !alert_found then "[結果] 現在、今日以降のメンテナンス・障害情報はありません"
  else ("[結果] ") ++ pyStr alert_found ++ ("件の通知を送信しました")

/-! Helper lemmas about the string and dictionary embeddings. -/

theorem isPrefixOf_cat : ∀ (a b : List Char), a.isPrefixOf (a ++ b) = true
  | [], _ => by simp [List.isPrefixOf]
  | c :: cs, b => by simp [List.isPrefixOf, isPrefixOf_cat cs b]

theorem isPrefixOf_cat_cat (a : List Char) {b c : List Char} (h : b.isPrefixOf c = true) :
    (a ++ b).isPrefixOf (a ++ c) = true := by
  induction a with
  | nil => simpa using h
  | cons x xs ih => simpa [List.isPrefixOf] using ih

theorem pyStartsWith_cat (p r : String) : pyStartsWith (p ++ r) p = true := by
  simp only [pyStartsWith, String.data_append]
  exact isPrefixOf_cat p.data r.data

theorem mem_dictSet_self (d : HashDict) (k v : String) : (k, v) ∈ dictSet d k v := by
  unfold dictSet
  split
  · next hany =>
    rcases List.any_eq_true.mp hany with ⟨p, hp, hpk⟩
    exact List.mem_map.mpr ⟨p, hp, by simp [of_decide_eq_true hpk]⟩
  · simp

theorem splitU_ne_nil : ∀ (l : List Char), splitU l ≠ []
  | [] => by simp [splitU]
  | c :: cs => by
    rcases h : splitU cs with _ | ⟨p, ps⟩
    · exact absurd h (splitU_ne_nil cs)
    · by_cases hc : c = '_' <;> simp [splitU, h, hc]

theorem splitU_no_sep : ∀ (a : List Char), '_' ∉ a → splitU a = [a]
  | [], _ => by simp [splitU]
  | c :: cs, h => by
    have hc : c ≠ '_' := fun hc => h (hc ▸ List.mem_cons_self c cs)
    have ih := splitU_no_sep cs (fun hm => h (List.mem_cons_of_mem c hm))
    simp [splitU, ih, hc]

theorem splitU_cat : ∀ (a b : List Char), '_' ∉ a → splitU (a ++ '_' :: b) = a :: splitU b
  | [], b, _ => by simp [splitU]
  | c :: cs, b, h => by
    have hc : c ≠ '_' := fun hc => h (hc ▸ List.mem_cons_self c cs)
    have ih := splitU_cat cs b (fun hm => h (List.mem_cons_of_mem c hm))
    rcases hb : splitU b with _ | ⟨p, ps⟩
    · exact absurd hb (splitU_ne_nil b)
    · simp only [List.cons_append, splitU, List.append_eq, ih, hb, if_neg hc]

theorem lexLt_irrefl : ∀ (l : List Char), lexLt l l = false
  | [] => rfl
  | c :: cs => by simp [lexLt, lexLt_irrefl cs]

theorem mk_data (s : String) : String.mk s.data = s := rfl

theorem underscore_data : (("_") : String).data = ['_'] := rfl

theorem pySplit_mark_key (service event_type : String) (t : JSTTime)
    (hs : '_' ∉ service.data) (hty : '_' ∉ event_type.data)
    (hd : '_' ∉ (fmtYmd t).data) (hh : '_' ∉ (fmtHMS t).data) :
    pySplit (mark_key service event_type t) = [service, event_type, fmtYmd t, fmtHMS t] := by
  unfold pySplit mark_key fmtYmdHMS
  rw [show (service ++ ("_") ++ event_type ++ ("_") ++ (fmtYmd t ++ ("_") ++ fmtHMS t)).data
        = service.data ++ '_' :: (event_type.data ++ '_' :: ((fmtYmd t).data ++ '_' :: (fmtHMS t).data))
      from by simp [String.data_append, underscore_data]]
  rw [splitU_cat _ _ hs, splitU_cat _ _ hty, splitU_cat _ _ hd, splitU_no_sep _ hh]
  simp [mk_data]

theorem any_fst_congr (f : String → Bool) :
    ∀ (l1 l2 : List (String × String)), l1.map Prod.fst = l2.map Prod.fst →
      (l1.any fun kv => f kv.1) = (l2.any fun kv => f kv.1)
  | [], [], _ => rfl
  | [], _ :: _, h => by simp at h
  | _ :: _, [], h => by simp at h
  | x :: l1, y :: l2, h => by
    simp only [List.map_cons, List.cons.injEq] at h
    simp [List.any_cons, h.1, any_fst_congr f l1 l2 h.2]

theorem filter_fst_congr (f : String → Bool) :
    ∀ (l1 l2 : List (String × String)), l1.map Prod.fst = l2.map Prod.fst →
      (l1.filter fun kv => f kv.1).map Prod.fst = (l2.filter fun kv => f kv.1).map Prod.fst
  | [], [], _ => rfl
  | [], _ :: _, h => by simp at h
  | _ :: _, [], h => by simp at h
  | x :: l1, y :: l2, h => by
    simp only [List.map_cons, List.cons.injEq] at h
    have ih := filter_fst_congr f l1 l2 h.2
    by_cases hf : f x.1 = true
    · simp [List.filter_cons, hf, h.1 ▸ hf, ih, h.1]
    · simp [List.filter_cons, hf, h.1 ▸ hf, ih]

/-! Claim theorems. -/

/-- C2: the duplicate check is a prefix match over ledger keys whose bucket
depends on the event type: for `trouble` it reports `true` iff some ledger key
starts with `service_trouble_YYYYMMDD_HH` for the current service-time hour,
and for any other event type iff some key starts with `service_type_YYYYMMDD`
for the current service-time day. -/
theorem C2_bucket_dedup_check (service event_type : String) (now : JSTTime)
    (hashes : HashDict) :
    (is_notification_already_sent_today service ("trouble") now hashes = true ↔
      ∃ kv ∈ hashes, pyStartsWith kv.1
        (service ++ ("_trouble_") ++ fmtYmd now ++ ("_") ++ pad2 now.hour) = true)
    ∧ (event_type ≠ ("trouble") →
      (is_notification_already_sent_today service event_type now hashes = true ↔
        ∃ kv ∈ hashes, pyStartsWith kv.1
          (service ++ ("_") ++ event_type ++ ("_") ++ fmtYmd now) = true)) := by
  constructor
  · have hb : service ++ ("_") ++ ("trouble") ++ ("_") ++ fmtYmdH now
        = service ++ ("_trouble_") ++ fmtYmd now ++ ("_") ++ pad2 now.hour := by
      apply String.ext
      have hlit : (("_trouble_") : String).data
          = (("_") : String).data ++ (("trouble") : String).data ++ (("_") : String).data := by
        decide
      simp [String.data_append, fmtYmdH, hlit]
    unfold is_notification_already_sent_today
    rw [if_pos rfl, hb, List.any_eq_true]
  · intro hne
    unfold is_notification_already_sent_today
    rw [if_neg hne, List.any_eq_true]

/-- C2 witness: the maintenance-day conjunct applied at a concrete ledger. -/
theorem C2_bucket_dedup_check_witness :
    is_notification_already_sent_today ("cloud") ("maint") ⟨2025, 10, 12, 14, 0, 0⟩
      [(("cloud_maint_20251012_090102"), ("abcd"))] = true ↔
    ∃ kv ∈ [((("cloud_maint_20251012_090102") : String), (("abcd") : String))],
      pyStartsWith kv.1 (("cloud") ++ ("_") ++ ("maint") ++ ("_")
        ++ fmtYmd ⟨2025, 10, 12, 14, 0, 0⟩) = true :=
  (C2_bucket_dedup_check ("cloud") ("maint") ⟨2025, 10, 12, 14, 0, 0⟩
    [(("cloud_maint_20251012_090102"), ("abcd"))]).2 (by decide)

/-- C5: pruning with cutoff string `cutoff_str` (the code computes it as
`(now - 7 days).strftime('%Y%m%d')` in service time) removes exactly the
well-formed keys (at least 4 `'_'`-separated parts) whose embedded third part
is strictly below the cutoff; a key whose embedded date equals the cutoff is
retained, and every retained entry keeps its key-value pair unchanged. -/
theorem C5_pruning (cutoff_str : String) (hashes : HashDict) (kv : String × String) :
    (kv ∈ cleanup_old_notification_hashes cutoff_str hashes ↔
      kv ∈ hashes ∧
        ¬((pySplit kv.1).length ≥ 4 ∧ pyStrLt ((pySplit kv.1).getD 2 ("")) cutoff_str = true))
    ∧ ((pySplit kv.1).getD 2 ("") = cutoff_str → kv ∈ hashes →
        kv ∈ cleanup_old_notification_hashes cutoff_str hashes) := by
  have hpred : ((!(decide ((pySplit kv.1).length ≥ 4)
        && pyStrLt ((pySplit kv.1).getD 2 ("")) cutoff_str)) = true)
      ↔ ¬((pySplit kv.1).length ≥ 4 ∧ pyStrLt ((pySplit kv.1).getD 2 ("")) cutoff_str = true) := by
    cases hd : decide ((pySplit kv.1).length ≥ 4) with
    | false => simp [of_decide_eq_false hd]
    | true => cases hl : pyStrLt ((pySplit kv.1).getD 2 ("")) cutoff_str <;>
        simp [of_decide_eq_true hd, hl]
  have hmain : kv ∈ cleanup_old_notification_hashes cutoff_str hashes ↔
      kv ∈ hashes ∧
        ¬((pySplit kv.1).length ≥ 4 ∧ pyStrLt ((pySplit kv.1).getD 2 ("")) cutoff_str = true) := by
    unfold cleanup_old_notification_hashes
    rw [List.mem_filter]
    exact and_congr Iff.rfl hpred
  refine ⟨hmain, fun heq hm => ?_⟩
  refine hmain.mpr ⟨hm, fun hcon => ?_⟩
  rw [heq] at hcon
  have : lexLt cutoff_str.data cutoff_str.data = true := hcon.2
  rw [lexLt_irrefl] at this
  exact Bool.false_ne_true this

/-- C5 witness: with cutoff `20251005`, an entry dated `20251004` is removed
while the boundary entry dated exactly `20251005` is retained with its value. -/
theorem C5_pruning_witness :
    ¬((("cloud_maint_20251004_120000") : String), (("old") : String)) ∈
        cleanup_old_notification_hashes ("20251005")
          [(("cloud_maint_20251004_120000"), ("old")),
           (("cloud_maint_20251005_120000"), ("keep"))]
    ∧ ((("cloud_maint_20251005_120000") : String), (("keep") : String)) ∈
        cleanup_old_notification_hashes ("20251005")
          [(("cloud_maint_20251004_120000"), ("old")),
           (("cloud_maint_20251005_120000"), ("keep"))] := by
  constructor
  · intro hmem
    have := ((C5_pruning ("20251005")
      [(("cloud_maint_20251004_120000"), ("old")),
       (("cloud_maint_20251005_120000"), ("keep"))]
      ((("cloud_maint_20251004_120000") : String), (("old") : String))).1).mp hmem
    exact this.2 (by decide)
  · exact (C5_pruning ("20251005")
      [(("cloud_maint_20251004_120000"), ("old")),
       (("cloud_maint_20251005_120000"), ("keep"))]
      ((("cloud_maint_20251005_120000") : String), (("keep") : String))).2
      (by decide) (by decide)

/-- C10: no decision reads the stored fingerprint values.  Two ledgers with the
same key sequence and arbitrary values give the same duplicate-check answer and
the same pruned key sequence, and the fingerprint written by the mark operation
depends only on the service, event type, record id and record `event_start`. -/
theorem C10_values_never_read (service event_type cutoff_str : String) (now : JSTTime)
    (h1 h2 : HashDict) (hkeys : h1.map Prod.fst = h2.map Prod.fst) :
    is_notification_already_sent_today service event_type now h1
      = is_notification_already_sent_today service event_type now h2
    ∧ (cleanup_old_notification_hashes cutoff_str h1).map Prod.fst
      = (cleanup_old_notification_hashes cutoff_str h2).map Prod.fst
    ∧ ∀ ev ev' : EventData, ev.id = ev'.id → ev.event_start = ev'.event_start →
        generate_notification_hash service event_type ev
          = generate_notification_hash service event_type ev' := by
  refine ⟨?_, ?_, ?_⟩
  · unfold is_notification_already_sent_today
    by_cases hty : event_type = ("trouble")
    · rw [if_pos hty, if_pos hty]
      exact any_fst_congr
        (fun k => pyStartsWith k (service ++ ("_") ++ event_type ++ ("_") ++ fmtYmdH now))
        h1 h2 hkeys
    · rw [if_neg hty, if_neg hty]
      exact any_fst_congr
        (fun k => pyStartsWith k (service ++ ("_") ++ event_type ++ ("_") ++ fmtYmd now))
        h1 h2 hkeys
  · unfold cleanup_old_notification_hashes
    exact filter_fst_congr
      (fun k => !(decide ((pySplit k).length ≥ 4) && pyStrLt ((pySplit k).getD 2 ("")) cutoff_str))
      h1 h2 hkeys
  · intro ev ev' hid hst
    unfold generate_notification_hash
    rw [hid, hst]

/-- C10 witness: two single-entry ledgers sharing the key but with different
fingerprint values produce identical duplicate-check and pruning decisions. -/
theorem C10_values_never_read_witness :
    is_notification_already_sent_today ("cloud") ("maint") ⟨2025, 10, 12, 14, 0, 0⟩
        [(("cloud_maint_20251012_090102"), ("aaaa"))]
      = is_notification_already_sent_today ("cloud") ("maint") ⟨2025, 10, 12, 14, 0, 0⟩
        [(("cloud_maint_20251012_090102"), ("bbbb"))]
    ∧ (cleanup_old_notification_hashes ("20251005")
        [(("cloud_maint_20251012_090102"), ("aaaa"))]).map Prod.fst
      = (cleanup_old_notification_hashes ("20251005")
        [(("cloud_maint_20251012_090102"), ("bbbb"))]).map Prod.fst :=
  ⟨(C10_values_never_read ("cloud") ("maint") ("20251005") ⟨2025, 10, 12, 14, 0, 0⟩
      [(("cloud_maint_20251012_090102"), ("aaaa"))]
      [(("cloud_maint_20251012_090102"), ("bbbb"))] (by decide)).1,
   (C10_values_never_read ("cloud") ("maint") ("20251005") ⟨2025, 10, 12, 14, 0, 0⟩
      [(("cloud_maint_20251012_090102"), ("aaaa"))]
      [(("cloud_maint_20251012_090102"), ("bbbb"))] (by decide)).2.1⟩

/-- C6: a record mentioning the narrow sub-region marker (石狩第2ゾーン) in its
title or description without the paired primary-region marker (石狩第1ゾーン)
in either field is never relevant, whatever its timestamps; and a record that
contains the primary marker as well is not excluded by this rule — its
relevance decision coincides with that of the same record with the marker
fields cleared. -/
theorem C6_region_exclusion (isoParse : String → Option Int) (event_data : EventData)
    (event_type : String) (now : Int) :
    ((pyIn zone2 (event_data.title.getD ("")) || pyIn zone2 (event_data.desc.getD (""))) = true →
      pyIn zone1 (event_data.title.getD ("")) = false →
      pyIn zone1 (event_data.desc.getD ("")) = false →
      is_event_relevant isoParse event_data event_type now = false)
    ∧ ((pyIn zone1 (event_data.title.getD ("")) = true ∨
        pyIn zone1 (event_data.desc.getD ("")) = true) →
      is_event_relevant isoParse event_data event_type now
        = is_event_relevant isoParse
            { event_data with title := none, desc := none } event_type now) := by
  have hz2 : pyIn zone2 ("") = false := by decide
  have hz1 : pyIn zone1 ("") = false := by decide
  rcases event_data with ⟨i, es, ee, ti, de, ur⟩
  constructor
  · intro h2 h1t h1d
    cases es with
    | none => rfl
    | some s => simp [is_event_relevant, h2, h1t, h1d]
  · intro hp
    cases es with
    | none => rfl
    | some s =>
      rcases hp with hp | hp <;>
        by_cases hse : s.isEmpty <;>
          simp [is_event_relevant, hse, hp, hz1, hz2]

/-- C6 witness: a record with only the narrow marker and an arbitrarily far
future start is excluded, and a record carrying both markers has the same
relevance decision as the marker-free record. -/
theorem C6_region_exclusion_witness :
    is_event_relevant (fun _ => none)
      { event_start := some ("9999999999"), title := some ("石狩第2ゾーン 作業") }
      ("maint") 1760238000 = false
    ∧ is_event_relevant (fun _ => none)
        { event_start := some ("1760238000"), title := some ("石狩第2ゾーンおよび石狩第1ゾーン") }
        ("maint") 1760238000
      = is_event_relevant (fun _ => none)
          { event_start := some ("1760238000"), title := none, desc := none }
          ("maint") 1760238000 :=
  ⟨(C6_region_exclusion (fun _ => none)
      { event_start := some ("9999999999"), title := some ("石狩第2ゾーン 作業") }
      ("maint") 1760238000).1 (by decide) (by decide) (by decide),
   (C6_region_exclusion (fun _ => none)
      { event_start := some ("1760238000"), title := some ("石狩第2ゾーンおよび石狩第1ゾーン") }
      ("maint") 1760238000).2 (Or.inl (by decide))⟩

theorem foldr_replace_no_Z (r : List Char) :
    ∀ (l b : List Char), 'Z' ∉ l →
      l.foldr (fun c acc => if c = 'Z' then r ++ acc else c :: acc) b = l ++ b
  | [], _, _ => rfl
  | c :: cs, b, h => by
    have hc : c ≠ 'Z' := fun hc => h (hc ▸ List.mem_cons_self c cs)
    have ih := foldr_replace_no_Z r cs b (fun hm => h (List.mem_cons_of_mem c hm))
    simp only [List.foldr_cons, if_neg hc, ih, List.cons_append]

/-- C7: timestamp handling of the relevance filter.  A digit-only
`event_start` is read as Unix epoch seconds; any other string is handed to the
ISO-8601 parser after replacing `Z` with `+00:00` (so a single trailing `Z`
becomes UTC offset zero); and a record whose `event_start` is missing, empty,
or unparsable is not relevant, the evaluation returning `false` rather than
propagating the error. -/
theorem C7_timestamp_handling :
    (∀ (isoParse : String → Option Int) (s : String), pyIsDigit s = true →
        parse_timestamp isoParse s = some ((pyInt s : Int)))
    ∧ (∀ (isoParse : String → Option Int) (s : String), pyIsDigit s = false →
        parse_timestamp isoParse s = isoParse (replace_Z_utc s))
    ∧ (∀ t : String, 'Z' ∉ t.data → replace_Z_utc (t ++ ("Z")) = t ++ ("+00:00"))
    ∧ (∀ (isoParse : String → Option Int) (ev : EventData) (ty : String) (now : Int),
        ev.event_start = none → is_event_relevant isoParse ev ty now = false)
    ∧ (∀ (isoParse : String → Option Int) (ev : EventData) (ty : String) (now : Int),
        ev.event_start = some ("") → is_event_relevant isoParse ev ty now = false)
    ∧ (∀ (isoParse : String → Option Int) (ev : EventData) (ty : String) (now : Int)
        (s : String), ev.event_start = some s → parse_timestamp isoParse s = none →
        is_event_relevant isoParse ev ty now = false) := by
  refine ⟨?_, ?_, ?_, ?_, ?_, ?_⟩
  · intro isoParse s h
    simp [parse_timestamp, h]
  · intro isoParse s h
    simp [parse_timestamp, h]
  · intro t h
    apply String.ext
    show ((t ++ ("Z")).data.foldr
      (fun c acc => if c = 'Z' then ((("+00:00") : String)).data ++ acc else c :: acc) []) = _
    rw [show (t ++ (("Z") : String)).data = t.data ++ ['Z'] from by simp [String.data_append]]
    rw [List.foldr_append, show (['Z'].foldr
      (fun c acc => if c = 'Z' then ((("+00:00") : String)).data ++ acc else c :: acc) [])
        = ((("+00:00") : String)).data from by simp]
    rw [foldr_replace_no_Z ((("+00:00") : String)).data t.data _ h]
    simp [String.data_append]
  · intro isoParse ev ty now h
    rcases ev with ⟨i, es, ee, ti, de, ur⟩
    simp only at h
    subst h
    rfl
  · intro isoParse ev ty now h
    rcases ev with ⟨i, es, ee, ti, de, ur⟩
    simp only at h
    subst h
    have hemp : (("") : String).isEmpty = true := rfl
    simp [is_event_relevant, hemp]
  · intro isoParse ev ty now s h hparse
    rcases ev with ⟨i, es, ee, ti, de, ur⟩
    simp only at h
    subst h
    by_cases hse : s.isEmpty <;> simp [is_event_relevant, hse, hparse]

/-- C7 witness: concrete instances of each conjunct — a digit string read as
epoch seconds, a non-digit string routed through the ISO parser on its
Z-replaced form, a trailing-Z rewrite, and the three fail-closed cases. -/
theorem C7_timestamp_handling_witness :
    parse_timestamp (fun _ => none) ("1760238000") = some ((1760238000 : Int))
    ∧ parse_timestamp (fun r => some (Int.ofNat r.length)) ("2025-10-12T03:00:00Z")
        = (fun r : String => some (Int.ofNat r.length)) (replace_Z_utc ("2025-10-12T03:00:00Z"))
    ∧ replace_Z_utc (("2025-10-12T03:00:00") ++ ("Z")) = ("2025-10-12T03:00:00") ++ ("+00:00")
    ∧ is_event_relevant (fun _ => none) {} ("maint") 1760238000 = false
    ∧ is_event_relevant (fun _ => none) { event_start := some ("") } ("maint") 1760238000 = false
    ∧ is_event_relevant (fun _ => none) { event_start := some ("not-a-date") } ("maint")
        1760238000 = false := by
  refine ⟨?_, ?_, ?_, ?_, ?_, ?_⟩
  · exact C7_timestamp_handling.1 (fun _ => none) ("1760238000") (by decide)
  · exact C7_timestamp_handling.2.1 (fun r => some (Int.ofNat r.length))
      ("2025-10-12T03:00:00Z") (by decide)
  · exact C7_timestamp_handling.2.2.1 ("2025-10-12T03:00:00") (by decide)
  · exact C7_timestamp_handling.2.2.2.1 (fun _ => none) {} ("maint") 1760238000 rfl
  · exact C7_timestamp_handling.2.2.2.2.1 (fun _ => none) { event_start := some ("") }
      ("maint") 1760238000 rfl
  · exact C7_timestamp_handling.2.2.2.2.2 (fun _ => none)
      { event_start := some ("not-a-date") } ("maint") 1760238000 ("not-a-date") rfl (by decide)

/-- C3 counterexample: the literal claim "for every record with a parsable
`event_start`, a maintenance record is relevant iff `event_start` (service
time) is at or after today's midnight" fails (a) for a region-excluded record
with a far-future start, and (b) for a record whose `event_end` is present but
unparsable, which the code rejects for maintenance records as well. -/
theorem C3_counterexample :
    ¬(is_event_relevant (fun _ => none)
        { event_start := some ("9999999999"), title := some ("石狩第2ゾーン 作業") }
        ("maint") 1760238000 = true ↔ (9999999999 : Int) ≥ todayStart 1760238000)
    ∧ ¬(is_event_relevant (fun _ => none)
        { event_start := some ("1760238000"), event_end := some ("badend") }
        ("maint") 1760238000 = true ↔ (1760238000 : Int) ≥ todayStart 1760238000) := by
  constructor
  · intro hiff
    have := hiff.mpr (by decide)
    exact absurd this (by decide)
  · intro hiff
    have := hiff.mpr (by decide)
    exact absurd this (by decide)

/-- C3 (amended): for a record with a parsable `event_start` that is not
region-excluded and whose `event_end`, when present and nonempty, parses: a
non-fault record is relevant iff its start is at or after today's JST
midnight; a fault with a parsed end is relevant iff that end is strictly after
now; a fault with an absent or empty end falls back to the start-of-today
rule. -/
theorem C3_relevance_rules (isoParse : String → Option Int) (event_data : EventData)
    (event_type : String) (now : Int) (s : String) (st : Int) (endv : Option Int)
    (hs : event_data.event_start = some s) (hne : s.isEmpty = false)
    (hexcl : ((pyIn zone2 (event_data.title.getD ("")) || pyIn zone2 (event_data.desc.getD ("")))
        && (!pyIn zone1 (event_data.title.getD (""))
            && !pyIn zone1 (event_data.desc.getD ("")))) = false)
    (hparse : parse_timestamp isoParse s = some st)
    (hend : parse_event_end isoParse event_data.event_end = some endv) :
    (event_type ≠ ("trouble") →
      is_event_relevant isoParse event_data event_type now = decide (st ≥ todayStart now))
    ∧ (∀ en : Int, event_type = ("trouble") → endv = some en →
        is_event_relevant isoParse event_data event_type now = decide (en > now))
    ∧ (event_type = ("trouble") → endv = none →
        is_event_relevant isoParse event_data event_type now = decide (st ≥ todayStart now)) := by
  rcases event_data with ⟨i, es, ee, ti, de, ur⟩
  simp only at hs hexcl hend
  subst hs
  refine ⟨?_, ?_, ?_⟩
  · intro hty
    simp [is_event_relevant, hne, hexcl, hparse, hend, hty]
  · intro en hty hen
    subst hty
    subst hen
    simp [is_event_relevant, hne, hexcl, hparse, hend]
  · intro hty hen
    subst hty
    subst hen
    simp [is_event_relevant, hne, hexcl, hparse, hend]

/-- C3 witness: the three amended rules at concrete records — a maintenance
record relevant from today's start, an ongoing fault judged by its end time,
and an end-less fault falling back to the start rule. -/
theorem C3_relevance_rules_witness :
    is_event_relevant (fun _ => none) { event_start := some ("1760238000") }
        ("maint") 1760238000 = decide ((1760238000 : Int) ≥ todayStart 1760238000)
    ∧ is_event_relevant (fun _ => none)
        { event_start := some ("1760230000"), event_end := some ("1760240000") }
        ("trouble") 1760238000 = decide ((1760240000 : Int) > 1760238000)
    ∧ is_event_relevant (fun _ => none) { event_start := some ("1760230000") }
        ("trouble") 1760238000 = decide ((1760230000 : Int) ≥ todayStart 1760238000) :=
  ⟨(C3_relevance_rules (fun _ => none) { event_start := some ("1760238000") }
      ("maint") 1760238000 ("1760238000") 1760238000 none
      rfl rfl (by decide) (by decide) rfl).1 (by decide),
   (C3_relevance_rules (fun _ => none)
      { event_start := some ("1760230000"), event_end := some ("1760240000") }
      ("trouble") 1760238000 ("1760230000") 1760230000 (some 1760240000)
      rfl rfl (by decide) (by decide) (by decide)).2.1 1760240000 rfl rfl,
   (C3_relevance_rules (fun _ => none) { event_start := some ("1760230000") }
      ("trouble") 1760238000 ("1760230000") 1760230000 none
      rfl rfl (by decide) (by decide) rfl).2.2 rfl rfl⟩

/-- Same time bucket, as used by the duplicate check: same formatted day and
hour for `trouble`, same formatted day otherwise. -/
def sameBucket (event_type : String) (t t2 : JSTTime) : Bool :=
  if event_type = ("trouble") then fmtYmd t = fmtYmd t2 && pad2 t.hour = pad2 t2.hour
  else fmtYmd t = fmtYmd t2

/-- C4: round-trip contract of the ledger — after `mark(service, type, record)`
at time `t`, the duplicate check at any time `t2` in the same bucket (same
service-time hour for `trouble`, same service-time day otherwise) answers
`true`, and keeps answering `true` after a pruning pass whose cutoff does not
yet exceed the marked entry's embedded date.  The underscore side conditions
record that the service and type identifiers and the strftime fields contain
no separator character, which holds for every configured value. -/
theorem C4_mark_roundtrip (service event_type : String) (event_data : EventData)
    (t t2 : JSTTime) (hashes : HashDict) (cutoff_str : String)
    (hb : sameBucket event_type t t2 = true)
    (hsvc : '_' ∉ service.data) (hty : '_' ∉ event_type.data)
    (hd : '_' ∉ (fmtYmd t).data) (hh : '_' ∉ (fmtHMS t).data)
    (hage : pyStrLt (fmtYmd t) cutoff_str = false) :
    is_notification_already_sent_today service event_type t2
      (mark_notification_as_sent service event_type event_data t hashes) = true
    ∧ is_notification_already_sent_today service event_type t2
      (cleanup_old_notification_hashes cutoff_str
        (mark_notification_as_sent service event_type event_data t hashes)) = true := by
  have hkeymem : (mark_key service event_type t,
      generate_notification_hash service event_type event_data)
      ∈ mark_notification_as_sent service event_type event_data t hashes := by
    unfold mark_notification_as_sent
    exact mem_dictSet_self hashes _ _
  have hsurvive : (mark_key service event_type t,
      generate_notification_hash service event_type event_data)
      ∈ cleanup_old_notification_hashes cutoff_str
          (mark_notification_as_sent service event_type event_data t hashes) := by
    unfold cleanup_old_notification_hashes
    rw [List.mem_filter]
    refine ⟨hkeymem, ?_⟩
    show (!(decide ((pySplit (mark_key service event_type t)).length ≥ 4)
        && pyStrLt ((pySplit (mark_key service event_type t)).getD 2 ("")) cutoff_str)) = true
    rw [pySplit_mark_key service event_type t hsvc hty hd hh]
    simp [hage]
  have hpfx_trouble : event_type = ("trouble") →
      pyStartsWith (mark_key service event_type t)
        (service ++ ("_") ++ event_type ++ ("_") ++ fmtYmdH t2) = true := by
    intro htr
    subst htr
    simp [sameBucket] at hb
    obtain ⟨hb1, hb2⟩ := hb
    simp only [fmtYmdH]
    rw [← hb1, ← hb2]
    simp only [mark_key, fmtYmdHMS, fmtHMS, pyStartsWith, String.data_append,
      List.append_assoc]
    apply isPrefixOf_cat_cat
    apply isPrefixOf_cat_cat
    apply isPrefixOf_cat_cat
    apply isPrefixOf_cat_cat
    apply isPrefixOf_cat_cat
    apply isPrefixOf_cat_cat
    exact isPrefixOf_cat _ _
  have hpfx_day : event_type ≠ ("trouble") →
      pyStartsWith (mark_key service event_type t)
        (service ++ ("_") ++ event_type ++ ("_") ++ fmtYmd t2) = true := by
    intro htr
    simp [sameBucket, htr] at hb
    rw [← hb]
    simp only [mark_key, fmtYmdHMS, fmtHMS, pyStartsWith, String.data_append,
      List.append_assoc]
    apply isPrefixOf_cat_cat
    apply isPrefixOf_cat_cat
    apply isPrefixOf_cat_cat
    apply isPrefixOf_cat_cat
    exact isPrefixOf_cat _ _
  constructor
  · unfold is_notification_already_sent_today
    by_cases htr : event_type = ("trouble")
    · rw [if_pos htr, List.any_eq_true]
      exact ⟨_, hkeymem, hpfx_trouble htr⟩
    · rw [if_neg htr, List.any_eq_true]
      exact ⟨_, hkeymem, hpfx_day htr⟩
  · unfold is_notification_already_sent_today
    by_cases htr : event_type = ("trouble")
    · rw [if_pos htr, List.any_eq_true]
      exact ⟨_, hsurvive, hpfx_trouble htr⟩
    · rw [if_neg htr, List.any_eq_true]
      exact ⟨_, hsurvive, hpfx_day htr⟩

/-- C4 witness: a fault marked at 14:10:05 JST is still reported as sent at
14:59:59 the same hour, before and after a pruning pass with cutoff
`20251005`. -/
theorem C4_mark_roundtrip_witness :
    is_notification_already_sent_today ("iot") ("trouble") ⟨2025, 10, 12, 14, 59, 59⟩
      (mark_notification_as_sent ("iot") ("trouble") { id := some ("42") }
        ⟨2025, 10, 12, 14, 10, 5⟩ [(("w"), ("v"))]) = true
    ∧ is_notification_already_sent_today ("iot") ("trouble") ⟨2025, 10, 12, 14, 59, 59⟩
      (cleanup_old_notification_hashes ("20251005")
        (mark_notification_as_sent ("iot") ("trouble") { id := some ("42") }
          ⟨2025, 10, 12, 14, 10, 5⟩ [(("w"), ("v"))])) = true :=
  C4_mark_roundtrip ("iot") ("trouble") { id := some ("42") }
    ⟨2025, 10, 12, 14, 10, 5⟩ ⟨2025, 10, 12, 14, 59, 59⟩ [(("w"), ("v"))] ("20251005")
    (by decide) (by decide) (by decide) (by decide) (by decide) (by decide)

/-- C1 counterexample: with one relevant maintenance record, an empty ledger
and a failed webhook delivery (HTTP 500), the ledger after the pair iteration
differs from the ledger before it — the failed delivery is still marked. -/
theorem C1_counterexample :
    (processPair (fun _ => none) true
        ⟨("cloud"), ("maint"), some [{ event_start := some ("1760238000") }],
          DeliveryOutcome.httpError 500⟩
        1760238000 ⟨2025, 10, 12, 12, 0, 0⟩ [] false).1 ≠ ([] : HashDict) := by
  decide

/-- C1 (amended): `send_slack_notification` swallows every delivery outcome and
returns nothing, so the pair iteration is independent of the outcome; whenever
relevant records exist, the bucket has no prior notification and sending is
enabled, the ledger is marked with the first relevant record regardless of
whether the delivery succeeded. -/
theorem C1_no_rollback (isoParse : String → Option Int) (send_to_slack : Bool)
    (service event_type : String) (fetch : Option (List EventData))
    (outcome outcome2 : DeliveryOutcome) (nowE : Int) (now : JSTTime)
    (hashes : HashDict) (alert : Bool) :
    processPair isoParse send_to_slack ⟨service, event_type, fetch, outcome⟩ nowE now hashes alert
      = processPair isoParse send_to_slack ⟨service, event_type, fetch, outcome2⟩
          nowE now hashes alert
    ∧ (∀ (results : List EventData) (r : EventData) (rest : List EventData),
        fetch = some results →
        results.filter (fun e => is_event_relevant isoParse e event_type nowE) = r :: rest →
        is_notification_already_sent_today service event_type now hashes = false →
        processPair isoParse true ⟨service, event_type, fetch, outcome⟩ nowE now hashes alert
          = (mark_notification_as_sent service event_type r now hashes, true)) := by
  constructor
  · rfl
  · intro results r rest hfetch hfilter halready
    subst hfetch
    simp only [processPair]
    rw [hfilter]
    simp [halready]

/-- C1 witness: the amended statement at a concrete failed delivery — the pair
iteration with an HTTP 500 outcome marks the ledger and reports the alert. -/
theorem C1_no_rollback_witness :
    processPair (fun _ => none) true
        ⟨("cloud"), ("maint"), some [{ event_start := some ("1760238000") }],
          DeliveryOutcome.httpError 500⟩
        1760238000 ⟨2025, 10, 12, 12, 0, 0⟩ [] false
      = (mark_notification_as_sent ("cloud") ("maint") { event_start := some ("1760238000") }
          ⟨2025, 10, 12, 12, 0, 0⟩ [], true) :=
  (C1_no_rollback (fun _ => none) true ("cloud") ("maint")
      (some [{ event_start := some ("1760238000") }])
      (DeliveryOutcome.httpError 500) (DeliveryOutcome.httpError 500)
      1760238000 ⟨2025, 10, 12, 12, 0, 0⟩ [] false).2
    [{ event_start := some ("1760238000") }] { event_start := some ("1760238000") } []
    rfl (by decide) (by decide)

/-- C8 counterexample: marking over a ledger that already holds a key with the
current second's timestamp does not add a new key — dict assignment replaces
the entry in place, so "adds exactly one new key and preserves every existing
pair" fails at this state. -/
theorem C8_counterexample :
    ¬((mark_notification_as_sent ("cloud") ("maint") {} ⟨2025, 10, 12, 12, 0, 0⟩
          [(("cloud_maint_20251012_120000"), ("x"))]).length = 1 + 1
      ∧ ((("cloud_maint_20251012_120000") : String), (("x") : String)) ∈
          mark_notification_as_sent ("cloud") ("maint") {} ⟨2025, 10, 12, 12, 0, 0⟩
            [(("cloud_maint_20251012_120000"), ("x"))]) :=
  fun h => absurd h.1 (by decide)

/-- C8 (amended): when no existing ledger key equals the generated key (the
normal case — keys carry a seconds-resolution timestamp), the mark operation
appends exactly one pair, leaving every existing pair in place unchanged; and
the record whose fingerprint is stored is the first relevant record of the
batch. -/
theorem C8_mark_append (service event_type : String) (event_data : EventData) (t : JSTTime)
    (hashes : HashDict)
    (hfresh : (hashes.any fun p => p.1 = mark_key service event_type t) = false) :
    mark_notification_as_sent service event_type event_data t hashes
      = hashes ++ [(mark_key service event_type t,
          generate_notification_hash service event_type event_data)]
    ∧ (∀ (isoParse : String → Option Int) (results : List EventData) (r : EventData)
        (rest : List EventData) (outcome : DeliveryOutcome) (nowE : Int) (alert : Bool),
        results.filter (fun e => is_event_relevant isoParse e event_type nowE) = r :: rest →
        is_notification_already_sent_today service event_type t hashes = false →
        (processPair isoParse true ⟨service, event_type, some results, outcome⟩
            nowE t hashes alert).1
          = mark_notification_as_sent service event_type r t hashes) := by
  constructor
  · simp [mark_notification_as_sent, dictSet, hfresh]
  · intro isoParse results r rest outcome nowE alert hfilter halready
    simp only [processPair]
    rw [hfilter]
    simp [halready]

/-- C8 witness: the amended statement at a concrete ledger — the mark appends
one entry after the unrelated existing pair, and the pair iteration marks with
the head of the relevant batch. -/
theorem C8_mark_append_witness :
    mark_notification_as_sent ("cloud") ("maint") { id := some ("7") }
        ⟨2025, 10, 12, 12, 0, 0⟩ [(("iot_maint_20251011_080000"), ("aa"))]
      = [(("iot_maint_20251011_080000"), ("aa"))]
        ++ [(mark_key ("cloud") ("maint") ⟨2025, 10, 12, 12, 0, 0⟩,
            generate_notification_hash ("cloud") ("maint") { id := some ("7") })]
    ∧ (processPair (fun _ => none) true
        ⟨("cloud"), ("maint"),
          some [{ id := some ("7"), event_start := some ("1760238000") }],
          DeliveryOutcome.delivered⟩
        1760238000 ⟨2025, 10, 12, 12, 0, 0⟩ [(("iot_maint_20251011_080000"), ("aa"))]
        false).1
      = mark_notification_as_sent ("cloud") ("maint")
          { id := some ("7"), event_start := some ("1760238000") }
          ⟨2025, 10, 12, 12, 0, 0⟩ [(("iot_maint_20251011_080000"), ("aa"))] :=
  ⟨(C8_mark_append ("cloud") ("maint") { id := some ("7") } ⟨2025, 10, 12, 12, 0, 0⟩
      [(("iot_maint_20251011_080000"), ("aa"))] (by decide)).1,
   (C8_mark_append ("cloud") ("maint")
      { id := some ("7"), event_start := some ("1760238000") } ⟨2025, 10, 12, 12, 0, 0⟩
      [(("iot_maint_20251011_080000"), ("aa"))] (by decide)).2
     (fun _ => none) [{ id := some ("7"), event_start := some ("1760238000") }]
     { id := some ("7"), event_start := some ("1760238000") } []
     DeliveryOutcome.delivered 1760238000 false (by decide) (by decide)⟩

/-- C9: the run summary is computed from the boolean `alert_found`, not from a
count — a run that sends two notifications (two ledger entries written) ends
with `alert_found = true` and the summary string `[結果] True件の通知を送信しました`,
and a run with `send_to_slack = False` sets the flag without writing any
ledger entry at all, so the reported summary is not the number of delivered
notifications. -/
theorem C9_summary_is_boolean :
    (check_sakura_api_status (fun _ => none) true ("20251005")
        [⟨("iot"), ("maint"), some [{ event_start := some ("1760238000") }],
            DeliveryOutcome.delivered⟩,
         ⟨("cloud"), ("maint"), some [{ event_start := some ("1760238000") }],
            DeliveryOutcome.delivered⟩]
        1760238000 ⟨2025, 10, 12, 12, 0, 0⟩ []).1.length = 2
    ∧ (check_sakura_api_status (fun _ => none) true ("20251005")
        [⟨("iot"), ("maint"), some [{ event_start := some ("1760238000") }],
            DeliveryOutcome.delivered⟩,
         ⟨("cloud"), ("maint"), some [{ event_start := some ("1760238000") }],
            DeliveryOutcome.delivered⟩]
        1760238000 ⟨2025, 10, 12, 12, 0, 0⟩ []).2 = true
    ∧ final_summary true = ("[結果] True件の通知を送信しました")
    ∧ (check_sakura_api_status (fun _ => none) false ("20251005")
        [⟨("iot"), ("maint"), some [{ event_start := some ("1760238000") }],
            DeliveryOutcome.delivered⟩]
        1760238000 ⟨2025, 10, 12, 12, 0, 0⟩ []).2 = true
    ∧ (check_sakura_api_status (fun _ => none) false ("20251005")
        [⟨("iot"), ("maint"), some [{ event_start := some ("1760238000") }],
            DeliveryOutcome.delivered⟩]
        1760238000 ⟨2025, 10, 12, 12, 0, 0⟩ []).1.length = 0 := by
  refine ⟨by decide, by decide, by decide, by decide, by decide⟩

end SakuraChecker
